import Mathlib

/-!
Verification development for the AI-RecoverOps incident-remediation pipeline.

The Lean definitions below are shallow embeddings of the Python sources:
Python dictionaries become association lists, database rows become
structures, float literals become exact rationals (written with mkRat,
for example mkRat 8 10 for the literal 0.8), strings are handled through
their underlying character lists, exceptions become Except values, and
the external platform channels (Git providers, HMAC, the regex engine)
are passed in as oracle parameters.
-/

namespace AIRecoverOps

/-! String helpers mirroring the Python operations used by the sources:
substring membership (the Python in operator on str) and str.lower
restricted to ASCII, which covers every keyword literal in the code. -/

/-- Boolean test that the second character list is an initial segment of the first. -/
def startsWithL : List Char → List Char → Bool
  | _, [] => true
  | [], _ :: _ => false
  | c :: s, d :: p => c = d && startsWithL s p

/-- Boolean test that the second character list occurs contiguously in the first,
mirroring the Python expression keyword in message. -/
def containsL : List Char → List Char → Bool
  | [], p => p.isEmpty
  | c :: rest, p => startsWithL (c :: rest) p || containsL rest p

/-- ASCII lower-casing of one character, the fragment of str.lower exercised here. -/
def lowerChar (c : Char) : Char :=
  if 'A' ≤ c && c ≤ 'Z' then Char.ofNat (c.toNat + 32) else c

/-- ASCII lower-casing of a string, mirroring message.lower() in the sources. -/
def lowerS (s : String) : List Char := s.data.map lowerChar

/-- Python substring test sub in s on plain strings. -/
def strContains (s sub : String) : Bool := containsL s.data sub.data

/-! Data model, from src/backend/database/models.py.  Only the columns the
claims touch are carried; statuses are strings exactly as the routes and the
executor assign them (the SQLAlchemy columns are String(20)). -/

/-- Remediation row (table remediations): the columns read or written by the
executor and the rollback path. -/
structure RemediationRow where
  id : String
  incident_id : String
  status : String
  success : Bool
  error_message : Option String
  has_pr_rollback_data : Bool
  deriving Repr, DecidableEq

/-- Incident row (table incidents): the columns the executor and the incident
routes read or write. -/
structure IncidentRow where
  id : String
  status : String
  deriving Repr, DecidableEq

/-- Relational state shared by the pipeline stages. -/
structure DBState where
  incidents : List IncidentRow
  remediations : List RemediationRow
  deriving Repr, DecidableEq

/-- One fix dictionary from a remediation-queue batch, with the keys
RemediationExecutor reads: fix_type, description, and the optional
confidence (fix.get("confidence", 0)). -/
structure Fix where
  fix_type : String
  description : String
  confidence : Option ℚ
  deriving Repr, DecidableEq

/-- Value of fix.get("confidence", 0) in the executor. -/
def Fix.conf (f : Fix) : ℚ := f.confidence.getD 0

/-- Outcome of RemediationExecutor._execute_single_fix: the RemediationResult
dataclass fields the batch loop inspects. -/
structure RemediationResult where
  success : Bool
  message : String
  deriving Repr, DecidableEq

/-! Remediation executor, from src/backend/remediation/executor.py. -/

/-- Fix loop of RemediationExecutor._execute_remediation.  The loop checks the
emergency-stop attribute before each fix, runs the fix through the channel
adapters (abstracted as the oracle execFix), and breaks when a fix fails with
fix.get("confidence", 0) below 0.8.  Returns the executed fixes paired with
their results, in execution order. -/
def executeFixLoop (emergencyStop : Bool) (execFix : Fix → RemediationResult) :
    List Fix → List (Fix × RemediationResult)
  | [] => []
  | f :: rest =>
    if emergencyStop then []
    else
      let r := execFix f
      if !r.success && decide (f.conf < mkRat 8 10) then [(f, r)]
      else (f, r) :: executeFixLoop emergencyStop execFix rest

/-- Fixes on which _execute_single_fix was actually invoked for a batch. -/
def executedFixes (emergencyStop : Bool) (execFix : Fix → RemediationResult)
    (fixes : List Fix) : List Fix :=
  (executeFixLoop emergencyStop execFix fixes).map Prod.fst

/-- Final incident status computed at the end of _execute_remediation:
success_count = number of successful results, overall success when it is
positive, giving status resolved, otherwise failed. -/
def overallStatus (results : List RemediationResult) : String :=
  if 0 < (results.filter (fun r => r.success)).length then "resolved" else "failed"

/-- Effect of RemediationExecutor._execute_remediation on the relational state.
If the incident is missing the method returns with no change; otherwise it runs
the fix loop and commits the final incident status (the method also commits an
intermediate fixing status before the loop, which the final commit overwrites;
it never touches the remediations table). -/
def execute_remediation (emergencyStop : Bool) (execFix : Fix → RemediationResult)
    (db : DBState) (incidentId : String) (fixes : List Fix) : DBState :=
  if (db.incidents.filter (fun i => i.id = incidentId)).isEmpty then db
  else
    let steps := executeFixLoop emergencyStop execFix fixes
    let final := overallStatus (steps.map Prod.snd)
    { db with
      incidents := db.incidents.map
        (fun i => if i.id = incidentId then { i with status := final } else i) }

/-! Claim C1. -/

/-- Concrete failing batch used against claim C1: two fixes, the first with
confidence 0.9. -/
def c1HighFix : Fix := { fix_type := "code_patch", description := "f1", confidence := some (mkRat 9 10) }

/-- Second fix of the concrete batches. -/
def c1SecondFix : Fix := { fix_type := "code_patch", description := "f2", confidence := some (mkRat 9 10) }

/-- First fix of the two-fix scenario: fails with confidence 0.6. -/
def c1LowFix : Fix := { fix_type := "code_patch", description := "f1", confidence := some (mkRat 6 10) }

/-- Channel oracle on which every fix execution fails. -/
def execAllFail : Fix → RemediationResult :=
  fun _ => { success := false, message := "Fix execution failed" }

/-- Database with the single incident of the concrete batches. -/
def c1DB : DBState :=
  { incidents := [{ id := "i1", status := "fixing" }], remediations := [] }

/-- Claim C1, counterexample: in a batch of two fixes where fix number one
fails with confidence 0.9 (at or above 0.8), the executor still executes fix
number two — a failing high-confidence fix does not halt the batch, contrary
to the claim that once any fix fails no later fix of the batch is executed. -/
theorem highConfidenceFailureDoesNotHaltBatch :
    (execAllFail c1HighFix).success = false ∧
    mkRat 8 10 ≤ c1HighFix.conf ∧
    executedFixes false execAllFail [c1HighFix, c1SecondFix] = [c1HighFix, c1SecondFix] := by
  decide

/-- Claim C1 as amended: a failing fix halts the batch exactly when its
confidence is below 0.8 — on a low-confidence failure the remainder of the
batch is skipped, while a failing fix with confidence at or above 0.8 lets the
batch continue; and in the two-fix scenario where fix number one fails with
confidence 0.6, fix number two is never executed and the incident ends at
status failed. -/
theorem batchAbortRule (execFix : Fix → RemediationResult) (f : Fix) (rest : List Fix)
    (hfail : (execFix f).success = false) :
    (f.conf < mkRat 8 10 →
      executedFixes false execFix (f :: rest) = [f]) ∧
    (mkRat 8 10 ≤ f.conf →
      executedFixes false execFix (f :: rest) = f :: executedFixes false execFix rest) ∧
    (execute_remediation false execAllFail c1DB "i1" [c1LowFix, c1SecondFix]
        = { incidents := [{ id := "i1", status := "failed" }], remediations := [] } ∧
      executedFixes false execAllFail [c1LowFix, c1SecondFix] = [c1LowFix]) := by
  refine ⟨?_, ?_, ?_⟩
  · intro hlow
    simp [executedFixes, executeFixLoop, hfail, hlow]
  · intro hhigh
    simp [executedFixes, executeFixLoop, hfail, not_lt.mpr hhigh]
  · decide

/-- Witness for batchAbortRule at the concrete low-confidence batch. -/
theorem batchAbortRuleWitness :
    executedFixes false execAllFail (c1LowFix :: [c1SecondFix]) = [c1LowFix] :=
  (batchAbortRule execAllFail c1LowFix [c1SecondFix] rfl).1 (by decide)

/-! Rollback, from RemediationExecutor.rollback_remediation.  The method
filters the remediations of the incident by the boolean success column; for
each such row it replays rollback_data (closing the pull request when
pr_number is present) and sets the row status to rolled_back; a raised
per-row error only clears the overall flag.  It then sets the incident status
to rolled_back when the flag survived and to failed otherwise. -/

/-- Result of a rollback call: the new relational state, the boolean the
method returns, and the rows on which a per-row rollback action was
attempted (the rows the loop iterates over). -/
structure RollbackOutcome where
  db : DBState
  returned : Bool
  actedOn : List RemediationRow
  deriving Repr, DecidableEq

/-- Shallow embedding of RemediationExecutor.rollback_remediation.  The oracle
rbFails tells whether the per-row try block raises for a given row (the body
itself swallows platform errors, so this is the residual failure channel). -/
def rollback_remediation (rbFails : RemediationRow → Bool) (db : DBState)
    (incidentId : String) : RollbackOutcome :=
  let targets := db.remediations.filter (fun r => r.incident_id = incidentId && r.success)
  let rollback_success := targets.all (fun r => !rbFails r)
  let newRems := db.remediations.map (fun r =>
    if r.incident_id = incidentId && r.success && !rbFails r then
      { r with status := "rolled_back" }
    else r)
  let newStatus := if rollback_success then "rolled_back" else "failed"
  let newIncs := db.incidents.map
    (fun i => if i.id = incidentId then { i with status := newStatus } else i)
  { db := { incidents := newIncs, remediations := newRems },
    returned := rollback_success,
    actedOn := targets }

/-! Claim C2. -/

/-- Database for the C2 counterexample: a failed incident whose only
remediation row never reached success. -/
def c2DB : DBState :=
  { incidents := [{ id := "i2", status := "failed" }],
    remediations := [{ id := "r1", incident_id := "i2", status := "failed",
                       success := false, error_message := some "boom",
                       has_pr_rollback_data := true }] }

/-- Per-row failure oracle on which no rollback step raises. -/
def rbNeverFails : RemediationRow → Bool := fun _ => false

/-- Claim C2, counterexample: on an incident none of whose remediation rows
has success, rollback indeed touches no row and performs no per-row action,
but it does not leave Incident.status unchanged — the incident enters at
status failed and comes out at status rolled_back. -/
theorem rollbackNoSuccessChangesStatus :
    (c2DB.remediations.all (fun r => !r.success)) = true ∧
    (rollback_remediation rbNeverFails c2DB "i2").actedOn = [] ∧
    (rollback_remediation rbNeverFails c2DB "i2").db.remediations = c2DB.remediations ∧
    ((rollback_remediation rbNeverFails c2DB "i2").db.incidents.map IncidentRow.status
      = ["rolled_back"]) ∧
    (c2DB.incidents.map IncidentRow.status = ["failed"]) := by
  decide

/-- Claim C2 as amended: for every incident none of whose remediation rows has
success = true, rollback attempts no per-remediation rollback action and
modifies no remediation row, but it always overwrites the incident status with
rolled_back (the empty loop leaves the success flag trivially true) and
returns success. -/
theorem rollbackNoSuccessFrame (rbFails : RemediationRow → Bool) (db : DBState)
    (incidentId : String)
    (h : ∀ r ∈ db.remediations, r.incident_id = incidentId → r.success = false) :
    (rollback_remediation rbFails db incidentId).actedOn = [] ∧
    (rollback_remediation rbFails db incidentId).db.remediations = db.remediations ∧
    (rollback_remediation rbFails db incidentId).returned = true ∧
    (rollback_remediation rbFails db incidentId).db.incidents = db.incidents.map
      (fun i => if i.id = incidentId then { i with status := "rolled_back" } else i) := by
  have htargets : db.remediations.filter
      (fun r => r.incident_id = incidentId && r.success) = [] := by
    refine List.filter_eq_nil_iff.mpr ?_
    intro r hr
    by_cases hid : r.incident_id = incidentId
    · simp [hid, h r hr hid]
    · simp [hid]
  have hrows : db.remediations.map (fun r =>
      if r.incident_id = incidentId && r.success && !rbFails r then
        { r with status := "rolled_back" }
      else r) = db.remediations := by
    have hpt : ∀ r ∈ db.remediations,
        (if r.incident_id = incidentId && r.success && !rbFails r then
          { r with status := "rolled_back" }
        else r) = r := by
      intro r hr
      by_cases hid : r.incident_id = incidentId
      · simp [hid, h r hr hid]
      · simp [hid]
    calc db.remediations.map _ = db.remediations.map id := List.map_congr_left hpt
    _ = db.remediations := List.map_id _
  refine ⟨?_, ?_, ?_, ?_⟩
  · simp [rollback_remediation, htargets]
  · simp only [rollback_remediation]
    exact hrows
  · simp [rollback_remediation, htargets]
  · simp [rollback_remediation, htargets]

/-- Witness for rollbackNoSuccessFrame at the concrete no-success database. -/
theorem rollbackNoSuccessFrameWitness :
    (rollback_remediation rbNeverFails c2DB "i2").actedOn = [] ∧
    (rollback_remediation rbNeverFails c2DB "i2").db.remediations = c2DB.remediations ∧
    (rollback_remediation rbNeverFails c2DB "i2").returned = true ∧
    (rollback_remediation rbNeverFails c2DB "i2").db.incidents = c2DB.incidents.map
      (fun i => if i.id = "i2" then { i with status := "rolled_back" } else i) :=
  rollbackNoSuccessFrame rbNeverFails c2DB "i2" (by decide)

/-! Claim C3. -/

/-- Every result recorded by the fix loop is the channel result of the fix it
is paired with. -/
theorem executeFixLoop_snd (es : Bool) (execFix : Fix → RemediationResult) :
    ∀ fixes : List Fix, ∀ pr ∈ executeFixLoop es execFix fixes, pr.2 = execFix pr.1 := by
  cases es with
  | true =>
    intro fixes pr hpr
    cases fixes <;> simp [executeFixLoop] at hpr
  | false =>
    intro fixes
    induction fixes with
    | nil => simp [executeFixLoop]
    | cons f rest ih =>
      intro pr hpr
      rw [executeFixLoop] at hpr
      by_cases hc : (!(execFix f).success && decide (f.conf < mkRat 8 10)) = true
      · simp [hc] at hpr
        simp [hpr]
      · simp [hc] at hpr
        rcases hpr with hpr | hpr
        · simp [hpr]
        · exact ih pr hpr

/-- Database for the C3 counterexample: one fixing incident with one pending
remediation row carrying no error message. -/
def c3DB : DBState :=
  { incidents := [{ id := "i3", status := "fixing" }],
    remediations := [{ id := "r31", incident_id := "i3", status := "pending",
                       success := false, error_message := none,
                       has_pr_rollback_data := false }] }

/-- Claim C3, counterexample: a batch whose single fix fails leaves the
remediation row of the incident exactly as it was — status still pending and
error_message still absent — so the execution failure is not recorded durably
on any Remediation row; only Incident.status changes (to failed). -/
theorem failureNotPersistedOnRemediationRow :
    (execAllFail c1LowFix).success = false ∧
    (execute_remediation false execAllFail c3DB "i3" [c1LowFix]).remediations
      = c3DB.remediations ∧
    (execute_remediation false execAllFail c3DB "i3" [c1LowFix]).remediations.map
      RemediationRow.error_message = [none] ∧
    (execute_remediation false execAllFail c3DB "i3" [c1LowFix]).remediations.map
      RemediationRow.status = ["pending"] ∧
    (execute_remediation false execAllFail c3DB "i3" [c1LowFix]).incidents.map
      IncidentRow.status = ["failed"] := by
  decide

/-- Claim C3 as amended: the executor never touches the remediations table.
For every executed batch the remediation rows (and in particular their
error_message and status columns) are left exactly as they were, and when the
incident exists and every fix of the batch fails, the only persisted record of
the failure is Incident.status = failed — the per-fix failure results exist
only in process memory. -/
theorem executorRemediationRowsFrame (es : Bool) (execFix : Fix → RemediationResult)
    (db : DBState) (iid : String) (fixes : List Fix)
    (hfound : (db.incidents.filter (fun i => i.id = iid)).isEmpty = false)
    (hallfail : ∀ f, (execFix f).success = false) :
    (execute_remediation es execFix db iid fixes).remediations = db.remediations ∧
    (execute_remediation es execFix db iid fixes).incidents = db.incidents.map
      (fun i => if i.id = iid then { i with status := "failed" } else i) := by
  have hloop : ((executeFixLoop es execFix fixes).map Prod.snd).filter
      (fun r => r.success) = [] := by
    refine List.filter_eq_nil_iff.mpr ?_
    intro r hr
    simp only [List.mem_map] at hr
    obtain ⟨pr, hpr, hsnd⟩ := hr
    have := executeFixLoop_snd es execFix fixes pr hpr
    simp [← hsnd, this, hallfail pr.1]
  constructor
  · simp [execute_remediation, hfound]
  · simp [execute_remediation, hfound, overallStatus, hloop]

/-- Witness for executorRemediationRowsFrame at the concrete one-fix batch. -/
theorem executorRemediationRowsFrameWitness :
    (execute_remediation false execAllFail c3DB "i3" [c1LowFix]).remediations
      = c3DB.remediations ∧
    (execute_remediation false execAllFail c3DB "i3" [c1LowFix]).incidents
      = c3DB.incidents.map
        (fun i => if i.id = "i3" then { i with status := "failed" } else i) :=
  executorRemediationRowsFrame false execAllFail c3DB "i3" [c1LowFix]
    (by decide) (fun _ => rfl)

/-! Webhook gateway, from src/backend/pipeline_monitor/webhook_listener.py. -/

/-- Exception value carried by a raised fastapi HTTPException. -/
structure HTTPError where
  status_code : Nat
  detail : String
  deriving Repr, DecidableEq

/-- Shallow embedding of WebhookListener._verify_github_signature.  The HMAC
computation itself is the oracle hmacHex (hexdigest of HMAC-SHA256 keyed by
the secret over the raw body); a missing or empty configured secret or header
skips verification exactly as the Python truthiness test does, and
hmac.compare_digest is equality on the two digest strings. -/
def verify_github_signature (hmacHex : String → String → String)
    (secret : Option String) (signature : Option String) (body : String) : Bool :=
  match secret, signature with
  | some sec, some sig =>
      if sec = "" || sig = "" then true
      else sig = "sha256=" ++ hmacHex sec body
  | _, _ => true

/-- Try-block of WebhookListener.handle_github_webhook: raises
HTTPException(403) on a failed signature check, otherwise queues the event
and answers the 200 body. -/
def github_webhook_body (hmacHex : String → String → String)
    (secret signature eventType : Option String) (body : String)
    (queue : List (Option String × String)) :
    Except HTTPError (Nat × List (Option String × String)) :=
  if verify_github_signature hmacHex secret signature body = false then
    .error { status_code := 403, detail := "Invalid signature" }
  else
    .ok (200, queue ++ [(eventType, body)])

/-- Whole of handle_github_webhook: the blanket except clause catches every
exception raised in the try-block — including the HTTPException(403) raised on
signature failure — and answers HTTPException(500) instead. -/
def handle_github_webhook (hmacHex : String → String → String)
    (secret signature eventType : Option String) (body : String)
    (queue : List (Option String × String)) : Nat × List (Option String × String) :=
  match github_webhook_body hmacHex secret signature eventType body queue with
  | .ok r => r
  | .error _ => (500, queue)

/-- Try-block of WebhookListener.handle_gitlab_webhook: raises
HTTPException(403) when the X-Gitlab-Token header differs from the configured
secret, otherwise queues the event. -/
def gitlab_webhook_body (configToken tokenHeader eventType : Option String)
    (body : String) (queue : List (Option String × String)) :
    Except HTTPError (Nat × List (Option String × String)) :=
  if tokenHeader ≠ configToken then
    .error { status_code := 403, detail := "Invalid token" }
  else
    .ok (200, queue ++ [(eventType, body)])

/-- Whole of handle_gitlab_webhook, with the same blanket except clause. -/
def handle_gitlab_webhook (configToken tokenHeader eventType : Option String)
    (body : String) (queue : List (Option String × String)) :
    Nat × List (Option String × String) :=
  match gitlab_webhook_body configToken tokenHeader eventType body queue with
  | .ok r => r
  | .error _ => (500, queue)

/-! Claim C4. -/

/-- Claim C4: on a failed GitHub signature check (or a mismatched GitLab
token) nothing is enqueued — hence no PipelineRun row is ever created for the
request, since rows are only written by the consumer of that queue — but the
HTTP status is 500, not the 403 the claim states: the try-block does raise
HTTPException(403), and the blanket except clause of the same handler catches
it and replaces it with HTTPException(500). -/
theorem invalidSignatureYields500NoEnqueue
    (hmacHex : String → String → String) (secret signature eventType : Option String)
    (body : String) (queue : List (Option String × String))
    (hv : verify_github_signature hmacHex secret signature body = false)
    (configToken tokenHeader : Option String) (hne : tokenHeader ≠ configToken) :
    github_webhook_body hmacHex secret signature eventType body queue
      = .error { status_code := 403, detail := "Invalid signature" } ∧
    handle_github_webhook hmacHex secret signature eventType body queue
      = (500, queue) ∧
    gitlab_webhook_body configToken tokenHeader eventType body queue
      = .error { status_code := 403, detail := "Invalid token" } ∧
    handle_gitlab_webhook configToken tokenHeader eventType body queue
      = (500, queue) := by
  refine ⟨?_, ?_, ?_, ?_⟩
  · simp [github_webhook_body, hv]
  · simp [handle_github_webhook, github_webhook_body, hv]
  · simp [gitlab_webhook_body, hne]
  · simp [handle_gitlab_webhook, gitlab_webhook_body, hne]

/-- Fixed stand-in digest oracle for the C4 witness. -/
def constDigest : String → String → String := fun _ _ => "d1"

/-- Witness for invalidSignatureYields500NoEnqueue: a configured secret with a
non-matching signature header, and a mismatched GitLab token. -/
theorem invalidSignatureYields500NoEnqueueWitness :
    github_webhook_body constDigest (some "s") (some "sha256=bad") (some "workflow_run") "payload" []
      = .error { status_code := 403, detail := "Invalid signature" } ∧
    handle_github_webhook constDigest (some "s") (some "sha256=bad") (some "workflow_run") "payload" []
      = (500, []) ∧
    gitlab_webhook_body (some "t") (some "u") (some "Pipeline Hook") "payload" []
      = .error { status_code := 403, detail := "Invalid token" } ∧
    handle_gitlab_webhook (some "t") (some "u") (some "Pipeline Hook") "payload" []
      = (500, []) :=
  invalidSignatureYields500NoEnqueue constDigest (some "s") (some "sha256=bad")
    (some "workflow_run") "payload" [] (by decide) (some "t") (some "u") (by decide)

/-! Failure classifier, from src/backend/ai_engine/failure_detector.py. -/

/-- FailurePattern dataclass: one classification rule.  The failure_type and
severity carry the string values of the FailureType and IncidentSeverity
enums. -/
structure FailurePattern where
  name : String
  pattern : String
  failure_type : String
  severity : String
  confidence : ℚ
  description : String
  deriving Repr, DecidableEq

/-- Rule set returned by FailureDetector._load_failure_patterns, in
declaration order. -/
def failurePatterns : List FailurePattern := [
  { name := "compilation_error",
    pattern := "(compilation failed|compile error|syntax error|cannot find symbol)",
    failure_type := "build_failure", severity := "high", confidence := mkRat 9 10,
    description := "Code compilation failure" },
  { name := "dependency_missing",
    pattern := "(module not found|package not found|dependency.*not found|could not resolve)",
    failure_type := "dependency_error", severity := "high", confidence := mkRat 85 100,
    description := "Missing dependency or package" },
  { name := "test_assertion_failure",
    pattern := "(assertion.*failed|test.*failed|expected.*but got|AssertionError)",
    failure_type := "test_failure", severity := "medium", confidence := mkRat 8 10,
    description := "Test assertion failure" },
  { name := "test_timeout",
    pattern := "(test.*timeout|test.*timed out|timeout.*test)",
    failure_type := "timeout_error", severity := "medium", confidence := mkRat 85 100,
    description := "Test execution timeout" },
  { name := "kubernetes_deployment_failed",
    pattern := "(deployment.*failed|pod.*failed|container.*failed|ImagePullBackOff|CrashLoopBackOff)",
    failure_type := "deployment_failure", severity := "critical", confidence := mkRat 9 10,
    description := "Kubernetes deployment failure" },
  { name := "docker_build_failed",
    pattern := "(docker build.*failed|dockerfile.*error|image.*build.*failed)",
    failure_type := "build_failure", severity := "high", confidence := mkRat 85 100,
    description := "Docker image build failure" },
  { name := "yaml_syntax_error",
    pattern := "(yaml.*error|yml.*error|invalid.*yaml|malformed.*yaml)",
    failure_type := "syntax_error", severity := "medium", confidence := mkRat 9 10,
    description := "YAML configuration syntax error" },
  { name := "json_syntax_error",
    pattern := "(json.*error|invalid.*json|malformed.*json|unexpected token)",
    failure_type := "syntax_error", severity := "medium", confidence := mkRat 9 10,
    description := "JSON configuration syntax error" },
  { name := "permission_denied",
    pattern := "(permission denied|access denied|forbidden|unauthorized|403)",
    failure_type := "permission_error", severity := "high", confidence := mkRat 85 100,
    description := "Permission or access denied" },
  { name := "aws_credentials_error",
    pattern := "(aws.*credentials|access key|secret key|token.*expired|InvalidAccessKeyId)",
    failure_type := "security_error", severity := "critical", confidence := mkRat 9 10,
    description := "AWS credentials or authentication error" },
  { name := "connection_timeout",
    pattern := "(connection.*timeout|network.*timeout|timeout.*connection|timed out)",
    failure_type := "network_error", severity := "medium", confidence := mkRat 8 10,
    description := "Network connection timeout" },
  { name := "dns_resolution_failed",
    pattern := "(dns.*resolution.*failed|name.*not.*resolved|host.*not.*found)",
    failure_type := "network_error", severity := "medium", confidence := mkRat 85 100,
    description := "DNS resolution failure" },
  { name := "out_of_memory",
    pattern := "(out of memory|oom|memory.*exceeded|killed.*memory)",
    failure_type := "resource_error", severity := "high", confidence := mkRat 9 10,
    description := "Out of memory error" },
  { name := "disk_space_full",
    pattern := "(no space left|disk.*full|storage.*full|quota.*exceeded)",
    failure_type := "resource_error", severity := "high", confidence := mkRat 9 10,
    description := "Disk space exhausted" }]

/-- Keyword list of FailureDetector._contains_failure_keywords. -/
def failureKeywords : List String :=
  ["failed", "error", "exception", "timeout", "denied", "refused",
   "crashed", "killed", "abort", "panic", "fatal", "critical"]

/-- Shallow embedding of FailureDetector._contains_failure_keywords. -/
def contains_failure_keywords (message : String) : Bool :=
  failureKeywords.any (fun kw => containsL (lowerS message) kw.data)

/-- Classification outcome dictionary produced by pattern detection and by
the keyword fallback. -/
structure FailureInfo where
  failure_type : String
  severity : String
  confidence : ℚ
  description : String
  pattern_name : String
  deriving Repr, DecidableEq

/-- Keyword groups of FailureDetector._ml_classify_failure. -/
def mlBuildKeywords : List String := ["build", "compile", "maven", "gradle", "npm"]

/-- Test-related keyword group of _ml_classify_failure. -/
def mlTestKeywords : List String := ["test", "spec", "junit", "pytest", "mocha"]

/-- Deployment-related keyword group of _ml_classify_failure. -/
def mlDeployKeywords : List String := ["deploy", "kubernetes", "docker", "container"]

/-- Shallow embedding of FailureDetector._ml_classify_failure: keyword-based
fallback classification over the lower-cased message, with the generic
unknown-error branch guarded by the log level. -/
def ml_classify_failure (message level : String) : Option FailureInfo :=
  let m := lowerS message
  if mlBuildKeywords.any (fun w => containsL m w.data) then
    some { failure_type := "build_failure", severity := "high", confidence := mkRat 7 10,
           description := "Build process failure detected", pattern_name := "ml_build_failure" }
  else if mlTestKeywords.any (fun w => containsL m w.data) then
    some { failure_type := "test_failure", severity := "medium", confidence := mkRat 7 10,
           description := "Test execution failure detected", pattern_name := "ml_test_failure" }
  else if mlDeployKeywords.any (fun w => containsL m w.data) then
    some { failure_type := "deployment_failure", severity := "high", confidence := mkRat 7 10,
           description := "Deployment failure detected", pattern_name := "ml_deployment_failure" }
  else if level = "ERROR" || level = "FATAL" then
    some { failure_type := "unknown_error", severity := "medium", confidence := mkRat 1 2,
           description := "Unknown error detected", pattern_name := "ml_unknown_error" }
  else none

/-- Classification dictionary built from a selected rule. -/
def patternInfo (p : FailurePattern) : FailureInfo :=
  { failure_type := p.failure_type, severity := p.severity, confidence := p.confidence,
    description := p.description, pattern_name := p.name }

/-- Loop body of FailureDetector._detect_failure_patterns: the accumulator is
the pair (best_match, highest_confidence), updated when the rule matches and
strictly beats the running maximum. -/
def selStep (ruleMatch : FailurePattern → Bool) (acc : Option FailurePattern × ℚ)
    (p : FailurePattern) : Option FailurePattern × ℚ :=
  if ruleMatch p && decide (acc.2 < p.confidence) then (some p, p.confidence) else acc

/-- Shallow embedding of FailureDetector._detect_failure_patterns.  The regex
engine re.search with IGNORECASE is the oracle regexSearch over (pattern,
message); on no rule match the method falls through to _ml_classify_failure. -/
def detect_failure_patterns (regexSearch : String → String → Bool)
    (message level : String) : Option FailureInfo :=
  let best := failurePatterns.foldl
    (selStep (fun p => regexSearch p.pattern message)) (none, 0)
  match best.1 with
  | some p => some (patternInfo p)
  | none => ml_classify_failure message level

/-- Shallow embedding of FailureDetector._analyze_log_entry: non-error levels
without failure keywords are skipped, otherwise the message goes through
pattern detection; a none result creates no incident. -/
def analyze_log_entry (regexSearch : String → String → Bool)
    (message level : String) : Option FailureInfo :=
  if !(level = "ERROR" || level = "FATAL" || level = "WARN")
      && !contains_failure_keywords message then
    none
  else detect_failure_patterns regexSearch message level

/-! Selection lemmas for the pattern fold. -/

/-- One selection step never lowers the running maximum. -/
theorem selStep_snd_mono (ruleMatch : FailurePattern → Bool)
    (acc : Option FailurePattern × ℚ) (p : FailurePattern) :
    acc.2 ≤ (selStep ruleMatch acc p).2 := by
  unfold selStep
  by_cases hc : (ruleMatch p && decide (acc.2 < p.confidence)) = true
  · have hlt : acc.2 < p.confidence := of_decide_eq_true ((Bool.and_eq_true _ _).mp hc).2
    simp [hc]
    exact le_of_lt hlt
  · simp [hc]

/-- The selection fold never lowers the running maximum. -/
theorem selFold_mono (ruleMatch : FailurePattern → Bool) (l : List FailurePattern) :
    ∀ acc : Option FailurePattern × ℚ, acc.2 ≤ (l.foldl (selStep ruleMatch) acc).2 := by
  induction l with
  | nil => intro acc; simp
  | cons p rest ih =>
    intro acc
    rw [List.foldl_cons]
    exact le_trans (selStep_snd_mono ruleMatch acc p) (ih _)

/-- Every matching rule is dominated by the final running maximum. -/
theorem selFold_bound (ruleMatch : FailurePattern → Bool) (l : List FailurePattern) :
    ∀ acc : Option FailurePattern × ℚ, ∀ q ∈ l, ruleMatch q = true →
      q.confidence ≤ (l.foldl (selStep ruleMatch) acc).2 := by
  induction l with
  | nil => simp
  | cons p rest ih =>
    intro acc q hq hmq
    rw [List.foldl_cons]
    rcases List.mem_cons.mp hq with rfl | hq'
    · refine le_trans ?_ (selFold_mono ruleMatch rest _)
      unfold selStep
      by_cases hlt : decide (acc.2 < q.confidence) = true
      · simp [hmq, hlt]
      · have hnlt : ¬ acc.2 < q.confidence := by simpa using hlt
        simp [hmq, hlt]
        exact not_lt.mp hnlt
    · exact ih _ q hq' hmq

/-- Shape of the selection fold: either no step fired and the accumulator
survives, or the result is the first rule of maximal confidence among the
matches that beat the initial accumulator — every matching rule declared
before it has strictly smaller confidence. -/
theorem selFold_shape (ruleMatch : FailurePattern → Bool) :
    ∀ (l : List FailurePattern) (acc : Option FailurePattern × ℚ),
      l.foldl (selStep ruleMatch) acc = acc ∨
      ∃ l1 p l2, l = l1 ++ p :: l2 ∧ ruleMatch p = true ∧
        (l.foldl (selStep ruleMatch) acc).1 = some p ∧
        (l.foldl (selStep ruleMatch) acc).2 = p.confidence ∧
        acc.2 < p.confidence ∧
        ∀ q ∈ l1, ruleMatch q = true → q.confidence < p.confidence := by
  intro l
  induction l with
  | nil => intro acc; left; rfl
  | cons p0 rest ih =>
    intro acc
    rw [List.foldl_cons]
    by_cases hc : (ruleMatch p0 && decide (acc.2 < p0.confidence)) = true
    · have hm0 : ruleMatch p0 = true := ((Bool.and_eq_true _ _).mp hc).1
      have hlt0 : acc.2 < p0.confidence :=
        of_decide_eq_true ((Bool.and_eq_true _ _).mp hc).2
      have hstep : selStep ruleMatch acc p0 = (some p0, p0.confidence) := by
        simp [selStep, hc]
      rw [hstep]
      rcases ih (some p0, p0.confidence) with heq | ⟨l1, p, l2, hsplit, hmp, h1, h2, hltp, hfirst⟩
      · right
        refine ⟨[], p0, rest, rfl, hm0, ?_, ?_, hlt0, ?_⟩
        · rw [heq]
        · rw [heq]
        · intro q hq; exact absurd hq (List.not_mem_nil q)
      · right
        refine ⟨p0 :: l1, p, l2, by rw [List.cons_append, hsplit], hmp, h1, h2,
          lt_trans hlt0 hltp, ?_⟩
        intro q hq hmq
        rcases List.mem_cons.mp hq with rfl | hq'
        · exact hltp
        · exact hfirst q hq' hmq
    · have hstep : selStep ruleMatch acc p0 = acc := by
        simp only [selStep]
        rw [if_neg]
        simpa using hc
      rw [hstep]
      rcases ih acc with heq | ⟨l1, p, l2, hsplit, hmp, h1, h2, hltp, hfirst⟩
      · left; exact heq
      · right
        refine ⟨p0 :: l1, p, l2, by rw [List.cons_append, hsplit], hmp, h1, h2, hltp, ?_⟩
        intro q hq hmq
        rcases List.mem_cons.mp hq with rfl | hq'
        · have hnlt : ¬ acc.2 < q.confidence := by
            intro hl
            exact hc (by simp [hmq, hl])
          exact lt_of_le_of_lt (not_lt.mp hnlt) hltp
        · exact hfirst q hq' hmq

/-- With no matching rule the fold returns the initial accumulator. -/
theorem selFold_nomatch (ruleMatch : FailurePattern → Bool) (l : List FailurePattern)
    (h : ∀ p ∈ l, ruleMatch p = false) :
    ∀ acc : Option FailurePattern × ℚ, l.foldl (selStep ruleMatch) acc = acc := by
  induction l with
  | nil => intro acc; rfl
  | cons p rest ih =>
    intro acc
    rw [List.foldl_cons]
    have hstep : selStep ruleMatch acc p = acc := by
      simp [selStep, h p (List.mem_cons_self p rest)]
    rw [hstep]
    exact ih (fun q hq => h q (List.mem_cons_of_mem p hq)) acc

/-! Claim C8. -/

/-- Claim C8: whenever at least one classification rule matches the signal
message, _detect_failure_patterns selects a matching rule of maximal
confidence among all matching rules, and every matching rule declared before
the selected one has strictly smaller confidence — so among equally-confident
matches the earliest-declared rule wins. -/
theorem classifierSelectsMaxConfidenceFirst (regexSearch : String → String → Bool)
    (message level : String) (p0 : FailurePattern) (hp0 : p0 ∈ failurePatterns)
    (hm0 : regexSearch p0.pattern message = true) :
    ∃ l1 p l2, failurePatterns = l1 ++ p :: l2 ∧
      regexSearch p.pattern message = true ∧
      detect_failure_patterns regexSearch message level = some (patternInfo p) ∧
      (∀ q ∈ failurePatterns, regexSearch q.pattern message = true →
        q.confidence ≤ p.confidence) ∧
      (∀ q ∈ l1, regexSearch q.pattern message = true →
        q.confidence < p.confidence) := by
  have hconfpos : ∀ p ∈ failurePatterns, (0 : ℚ) < p.confidence := by decide
  rcases selFold_shape (fun p => regexSearch p.pattern message) failurePatterns
      ((none : Option FailurePattern), (0 : ℚ)) with heq |
      ⟨l1, p, l2, hsplit, hmp, h1, h2, _, hfirst⟩
  · exfalso
    have hb := selFold_bound (fun p => regexSearch p.pattern message) failurePatterns
      ((none : Option FailurePattern), (0 : ℚ)) p0 hp0 hm0
    rw [heq] at hb
    exact absurd (lt_of_lt_of_le (hconfpos p0 hp0) hb) (lt_irrefl _)
  · refine ⟨l1, p, l2, hsplit, hmp, ?_, ?_, hfirst⟩
    · simp only [detect_failure_patterns]
      rw [h1]
    · intro q hq hmq
      have hb := selFold_bound (fun p => regexSearch p.pattern message) failurePatterns
        ((none : Option FailurePattern), (0 : ℚ)) q hq hmq
      rw [h2] at hb
      exact hb

/-- Regex oracle for the C8 witness: every rule matches. -/
def allRulesMatch : String → String → Bool := fun _ _ => true

/-- Witness for classifierSelectsMaxConfidenceFirst with every rule matching:
the fold then selects the first rule of confidence 0.9, the maximum. -/
theorem classifierSelectsMaxConfidenceFirstWitness :
    ∃ l1 p l2, failurePatterns = l1 ++ p :: l2 ∧
      allRulesMatch p.pattern "m" = true ∧
      detect_failure_patterns allRulesMatch "m" "ERROR" = some (patternInfo p) ∧
      (∀ q ∈ failurePatterns, allRulesMatch q.pattern "m" = true →
        q.confidence ≤ p.confidence) ∧
      (∀ q ∈ l1, allRulesMatch q.pattern "m" = true →
        q.confidence < p.confidence) :=
  classifierSelectsMaxConfidenceFirst allRulesMatch "m" "ERROR"
    { name := "compilation_error",
      pattern := "(compilation failed|compile error|syntax error|cannot find symbol)",
      failure_type := "build_failure", severity := "high", confidence := mkRat 9 10,
      description := "Code compilation failure" }
    (by decide) rfl

/-! Claim C5. -/

/-- Regex oracle encoding the hypothesis of claim C5: the message matches no
pattern rule. -/
def noRuleMatches : String → String → Bool := fun _ _ => false

/-- Claim C5, counterexample: a signal matching no rule and no keyword
heuristic is classified as unknown with confidence 0.5 — not the 0.3 the
claim states — and only when its level is ERROR or FATAL; the same signal at
level WARN is dropped with no incident at all, contradicting the claim that
no consumed raw signal lacks an incident. -/
theorem unknownClassificationConfidence :
    analyze_log_entry noRuleMatches "zzz" "ERROR"
      = some { failure_type := "unknown_error", severity := "medium",
               confidence := mkRat 1 2, description := "Unknown error detected",
               pattern_name := "ml_unknown_error" } ∧
    ¬ (mkRat 1 2 = mkRat 3 10) ∧
    analyze_log_entry noRuleMatches "operation refused" "WARN" = none := by
  decide

/-- Claim C5 as amended: for a raw signal whose message matches no pattern
rule and none of the keyword heuristics, the classifier produces an unknown
incident with confidence 0.5 exactly when the signal level is ERROR or FATAL;
any other level (including WARN signals that entered classification through a
failure keyword) yields no classification, so the signal is dropped without
an incident. -/
theorem unmatchedSignalClassification (regexSearch : String → String → Bool)
    (message level : String)
    (hnopat : ∀ p ∈ failurePatterns, regexSearch p.pattern message = false)
    (hnoml : ∀ w ∈ mlBuildKeywords ++ mlTestKeywords ++ mlDeployKeywords,
      containsL (lowerS message) w.data = false) :
    (level = "ERROR" ∨ level = "FATAL" →
      analyze_log_entry regexSearch message level
        = some { failure_type := "unknown_error", severity := "medium",
                 confidence := mkRat 1 2, description := "Unknown error detected",
                 pattern_name := "ml_unknown_error" }) ∧
    (level = "WARN" → analyze_log_entry regexSearch message level = none) := by
  have hfold : failurePatterns.foldl
      (selStep (fun p => regexSearch p.pattern message))
      ((none : Option FailurePattern), (0 : ℚ)) = (none, 0) :=
    selFold_nomatch _ _ (fun p hp => hnopat p hp) _
  have hb : (mlBuildKeywords.any fun w => containsL (lowerS message) w.data) = false := by
    refine List.any_eq_false.mpr ?_
    intro w hw
    simp [hnoml w (by simp [hw])]
  have ht : (mlTestKeywords.any fun w => containsL (lowerS message) w.data) = false := by
    refine List.any_eq_false.mpr ?_
    intro w hw
    simp [hnoml w (by simp [hw])]
  have hd : (mlDeployKeywords.any fun w => containsL (lowerS message) w.data) = false := by
    refine List.any_eq_false.mpr ?_
    intro w hw
    simp [hnoml w (by simp [hw])]
  constructor
  · rintro (h | h) <;>
      simp [analyze_log_entry, h, detect_failure_patterns, hfold,
        ml_classify_failure, hb, ht, hd]
  · intro h
    simp [analyze_log_entry, h, detect_failure_patterns, hfold,
      ml_classify_failure, hb, ht, hd]

/-- Witness for unmatchedSignalClassification at the concrete unmatched
signal. -/
theorem unmatchedSignalClassificationWitness :
    analyze_log_entry noRuleMatches "zzz" "ERROR"
      = some { failure_type := "unknown_error", severity := "medium",
               confidence := mkRat 1 2, description := "Unknown error detected",
               pattern_name := "ml_unknown_error" } :=
  (unmatchedSignalClassification noRuleMatches "zzz" "ERROR"
    (by decide) (by decide)).1 (Or.inl rfl)

/-! Configuration, from src/backend/config.py: the fields the executor and
the fix generator consult, with their declared defaults. -/

/-- Settings fields relevant to the claims, with the defaults of config.py. -/
structure Settings where
  AI_CONFIDENCE_THRESHOLD : ℚ
  AUTO_REMEDIATION_ENABLED : Bool
  MAX_CONCURRENT_REMEDIATIONS : Nat
  deriving Repr, DecidableEq

/-- Default configuration values declared in config.py. -/
def defaultSettings : Settings :=
  { AI_CONFIDENCE_THRESHOLD := mkRat 8 10,
    AUTO_REMEDIATION_ENABLED := true,
    MAX_CONCURRENT_REMEDIATIONS := 5 }

/-! Fix generator, from src/backend/ai_engine/fix_generator.py. -/

/-- Generation strategy chosen by FixGenerator.generate_fixes. -/
inductive FixStrategy
  | llm
  | template
  deriving Repr, DecidableEq

/-- Strategy branch of FixGenerator.generate_fixes.  The source test is
literally on self.openai_client and on confidence_score being greater than
the constant 0.7; the settings object imported by the module is not read by
this branch, which is why it is an unused parameter here. -/
def generateFixesStrategy (_s : Settings) (openaiConfigured : Bool)
    (confidence_score : ℚ) : FixStrategy :=
  if openaiConfigured && decide (confidence_score > mkRat 7 10) then .llm
  else .template

/-! Claim C6. -/

/-- Claim C6, counterexample: with an OpenAI backend configured, an incident
confidence of 0.75 and the default AI_CONFIDENCE_THRESHOLD of 0.8, the claim
requires template-based generation (0.75 does not exceed the configured
threshold), yet the generator selects LLM-backed generation, because the
source compares against the hardcoded constant 0.7. -/
theorem fixStrategyIgnoresConfiguredThreshold :
    generateFixesStrategy defaultSettings true (mkRat 75 100) = FixStrategy.llm ∧
    ¬ (defaultSettings.AI_CONFIDENCE_THRESHOLD < mkRat 75 100) := by
  decide

/-- Claim C6 as amended: LLM-backed generation is selected exactly when a
model backend is configured and the incident confidence_score exceeds the
hardcoded constant 0.7; the configured AI_CONFIDENCE_THRESHOLD plays no role
(the equivalence holds for every value of the settings). -/
theorem fixStrategyHardcodedThreshold (s : Settings) (openaiConfigured : Bool)
    (confidence_score : ℚ) :
    generateFixesStrategy s openaiConfigured confidence_score = FixStrategy.llm
      ↔ openaiConfigured = true ∧ mkRat 7 10 < confidence_score := by
  unfold generateFixesStrategy
  by_cases hcfg : openaiConfigured = true
  · by_cases hc : mkRat 7 10 < confidence_score
    · simp [hcfg, hc]
    · simp [hcfg, hc]
  · simp only [Bool.not_eq_true] at hcfg
    simp [hcfg]

/-! Incident REST routes, from src/backend/api/routes/incidents.py. -/

/-- Status assignment of PUT /api/incidents: the route copies any truthy
requested status verbatim onto the incident (the Python truthiness test
skips only a missing field or an empty string); there is no transition
validation. -/
def update_incident_status (current : String) (requested : Option String) : String :=
  match requested with
  | none => current
  | some s => if s = "" then current else s

/-- JSON value carried in a remediation-queue message. -/
inductive JsonVal
  | s (v : String)
  | b (v : Bool)
  | fixes (v : List Fix)
  deriving Repr, DecidableEq

/-- Queue message built by trigger_remediation: incident_id, triggered_by,
manual_trigger and queued_at — and no fixes key. -/
def manualRemediationMessage (incidentId triggeredBy queuedAt : String) :
    List (String × JsonVal) :=
  [("incident_id", JsonVal.s incidentId), ("triggered_by", JsonVal.s triggeredBy),
   ("manual_trigger", JsonVal.b true), ("queued_at", JsonVal.s queuedAt)]

/-- Outcome of POST /api/incidents/remediate on an existing incident. -/
structure RemediateOutcome where
  http_status : Nat
  incident_status : String
  queued : Option (List (String × JsonVal))
  deriving Repr, DecidableEq

/-- Shallow embedding of trigger_remediation: statuses resolved and fixing
are rejected with HTTP 400; every other current status is overwritten with
fixing and the manual message is enqueued. -/
def trigger_remediation (current : String)
    (incidentId triggeredBy queuedAt : String) : RemediateOutcome :=
  if current = "resolved" || current = "fixing" then
    { http_status := 400, incident_status := current, queued := none }
  else
    { http_status := 200, incident_status := "fixing",
      queued := some (manualRemediationMessage incidentId triggeredBy queuedAt) }

/-- Forward edges of the incident state machine as the specification draws
it: detected to analyzing to fixing to resolved or failed, with rolled_back
reachable by explicit rollback from fixing, resolved or failed.  This is the
specification side of claim C7, against which the route behaviour is
compared. -/
def specForwardEdge (a b : String) : Bool :=
  (a = "detected" && b = "analyzing") ||
  (a = "analyzing" && b = "fixing") ||
  (a = "fixing" && (b = "resolved" || b = "failed")) ||
  ((a = "fixing" || a = "resolved" || a = "failed") && b = "rolled_back")

/-! Claim C7. -/

/-- Claim C7, counterexample: PUT /api/incidents moves a resolved incident
back to detected — a backward transition on no edge of the state machine —
and POST /api/incidents/remediate moves a failed incident back to fixing;
both mutations are performed by the system yet are not forward edges. -/
theorem putAllowsBackwardTransition :
    update_incident_status "resolved" (some "detected") = "detected" ∧
    specForwardEdge "resolved" "detected" = false ∧
    (trigger_remediation "failed" "i7" "alice" "t0").incident_status = "fixing" ∧
    specForwardEdge "failed" "fixing" = false := by
  decide

/-- Claim C7 as amended: the REST endpoints do not confine Incident.status to
forward edges — PUT assigns any non-empty requested status verbatim whatever
the current status, and POST /remediate forces any status outside resolved
and fixing (including failed and rolled_back) to fixing, while rejecting
resolved and fixing unchanged. -/
theorem restStatusTransitions (current requested : String) (hne : requested ≠ "")
    (incidentId triggeredBy queuedAt : String) :
    update_incident_status current (some requested) = requested ∧
    (current ≠ "resolved" → current ≠ "fixing" →
      (trigger_remediation current incidentId triggeredBy queuedAt).incident_status
        = "fixing") ∧
    (current = "resolved" ∨ current = "fixing" →
      (trigger_remediation current incidentId triggeredBy queuedAt).incident_status
        = current) := by
  refine ⟨?_, ?_, ?_⟩
  · simp [update_incident_status, hne]
  · intro h1 h2
    simp [trigger_remediation, h1, h2]
  · rintro (h | h) <;> simp [trigger_remediation, h]

/-- Witness for restStatusTransitions at the backward PUT from resolved to
detected. -/
theorem restStatusTransitionsWitness :
    update_incident_status "resolved" (some "detected") = "detected" ∧
    ("resolved" ≠ "resolved" → "resolved" ≠ "fixing" →
      (trigger_remediation "resolved" "i7" "alice" "t0").incident_status = "fixing") ∧
    ("resolved" = "resolved" ∨ "resolved" = "fixing" →
      (trigger_remediation "resolved" "i7" "alice" "t0").incident_status
        = "resolved") :=
  restStatusTransitions "resolved" "detected" (by decide) "i7" "alice" "t0"

/-! Python attribute semantics for the executor object (claim C9).  A Python
object resolves a plain attribute through the instance dictionary first and
only then through the class dictionary; a plain function stored in the class
dictionary is a non-data descriptor, so an instance attribute of the same
name shadows it, and calling a bool raises TypeError. -/

/-- Python runtime value sitting in an attribute slot. -/
inductive PyVal
  | bool (b : Bool)
  | noneV
  | emptyDict
  | method (qualname : String)
  deriving Repr, DecidableEq

/-- Python object: its instance dictionary and the dictionary of its class. -/
structure PyObj where
  instanceDict : List (String × PyVal)
  classDict : List (String × PyVal)
  deriving Repr, DecidableEq

/-- Attribute lookup for plain class attributes: the instance dictionary
wins over the class dictionary. -/
def getattrPy (o : PyObj) (name : String) : Option PyVal :=
  match o.instanceDict.lookup name with
  | some v => some v
  | none => o.classDict.lookup name

/-- Calling a looked-up attribute: only a function is callable; a bool (or
None, or a dict) raises TypeError, a missing attribute raises
AttributeError. -/
def callAttrPy (o : PyObj) (name : String) : Except String String :=
  match getattrPy o name with
  | some (PyVal.method q) => Except.ok q
  | some (PyVal.bool _) => Except.error "TypeError: bool object is not callable"
  | some PyVal.noneV => Except.error "TypeError: NoneType object is not callable"
  | some PyVal.emptyDict => Except.error "TypeError: dict object is not callable"
  | none => Except.error "AttributeError"

/-- Class dictionary of RemediationExecutor: the public methods defined in
the class body, among them the async method emergency_stop. -/
def remediationExecutorClassDict : List (String × PyVal) :=
  [("start", PyVal.method "RemediationExecutor.start"),
   ("stop", PyVal.method "RemediationExecutor.stop"),
   ("emergency_stop", PyVal.method "RemediationExecutor.emergency_stop"),
   ("is_healthy", PyVal.method "RemediationExecutor.is_healthy")]

/-- Executor object as RemediationExecutor.__init__ leaves it (with no
platform tokens configured, so the clients stay None): the assignment
self.emergency_stop = False puts a bool into the instance dictionary. -/
def remediationExecutorInstance : PyObj :=
  { instanceDict :=
      [("running", PyVal.bool false), ("emergency_stop", PyVal.bool false),
       ("active_remediations", PyVal.emptyDict),
       ("github_client", PyVal.noneV), ("gitlab_client", PyVal.noneV),
       ("jenkins_client", PyVal.noneV)],
    classDict := remediationExecutorClassDict }

/-! Claim C9. -/

/-- Claim C9: on a constructed executor the attribute emergency_stop resolves
to the instance bool False installed by the constructor, shadowing the async
method of the same name in the class dictionary, so invoking the
emergency-stop operation through the method raises TypeError — the operator
kill-switch cannot be raised through its own method. -/
theorem emergencyStopShadowedByBool :
    getattrPy remediationExecutorInstance "emergency_stop"
      = some (PyVal.bool false) ∧
    remediationExecutorClassDict.lookup "emergency_stop"
      = some (PyVal.method "RemediationExecutor.emergency_stop") ∧
    callAttrPy remediationExecutorInstance "emergency_stop"
      = Except.error "TypeError: bool object is not callable" :=
  ⟨rfl, rfl, rfl⟩

/-! Executor queue processing, from
RemediationExecutor._process_pending_remediations. -/

/-- Outcome of one pass of _process_pending_remediations. -/
inductive ProcessOutcome
  | skipped
  | loggedError (err : String)
  | executed
  deriving Repr, DecidableEq

/-- Shallow embedding of _process_pending_remediations: the auto-remediation
flag and the concurrency cap are checked before anything is dequeued; then
one message is popped and request["incident_id"] and request["fixes"] are
read — a KeyError propagates to the enclosing try, whose handler only logs
the error, leaving the relational state untouched. -/
def process_pending_remediations (s : Settings) (activeCount : Nat)
    (emergencyStop : Bool) (execFix : Fix → RemediationResult) (db : DBState)
    (queue : List (List (String × JsonVal))) :
    ProcessOutcome × DBState × List (List (String × JsonVal)) :=
  if !s.AUTO_REMEDIATION_ENABLED then (ProcessOutcome.skipped, db, queue)
  else if s.MAX_CONCURRENT_REMEDIATIONS ≤ activeCount then
    (ProcessOutcome.skipped, db, queue)
  else
    match queue with
    | [] => (ProcessOutcome.skipped, db, queue)
    | msg :: rest =>
      match msg.lookup "incident_id" with
      | some (JsonVal.s incidentId) =>
        match msg.lookup "fixes" with
        | some (JsonVal.fixes fixes) =>
          (ProcessOutcome.executed,
            execute_remediation emergencyStop execFix db incidentId fixes, rest)
        | some _ => (ProcessOutcome.loggedError "TypeError", db, rest)
        | none => (ProcessOutcome.loggedError "KeyError: fixes", db, rest)
      | some _ => (ProcessOutcome.loggedError "TypeError", db, rest)
      | none => (ProcessOutcome.loggedError "KeyError: incident_id", db, rest)

/-! Claim C10. -/

/-- Claim C10: a manual remediation trigger on an incident outside resolved
and fixing marks it fixing and enqueues a message with no fixes key; when the
executor dequeues that message (auto-remediation on, below the concurrency
cap), request["fixes"] raises KeyError, the enclosing handler only logs it,
no fix is executed and the relational state — the incident still at fixing —
is unchanged, with no persisted failure record. -/
theorem manualRemediationMessageKeyError (s : Settings) (activeCount : Nat)
    (emergencyStop : Bool) (execFix : Fix → RemediationResult) (db : DBState)
    (rest : List (List (String × JsonVal)))
    (current incidentId triggeredBy queuedAt : String)
    (hen : s.AUTO_REMEDIATION_ENABLED = true)
    (hcap : activeCount < s.MAX_CONCURRENT_REMEDIATIONS)
    (hc1 : current ≠ "resolved") (hc2 : current ≠ "fixing") :
    (trigger_remediation current incidentId triggeredBy queuedAt).incident_status
      = "fixing" ∧
    (trigger_remediation current incidentId triggeredBy queuedAt).queued
      = some (manualRemediationMessage incidentId triggeredBy queuedAt) ∧
    (manualRemediationMessage incidentId triggeredBy queuedAt).lookup "fixes"
      = none ∧
    process_pending_remediations s activeCount emergencyStop execFix db
        (manualRemediationMessage incidentId triggeredBy queuedAt :: rest)
      = (ProcessOutcome.loggedError "KeyError: fixes", db, rest) := by
  refine ⟨?_, ?_, ?_, ?_⟩
  · simp [trigger_remediation, hc1, hc2]
  · simp [trigger_remediation, hc1, hc2]
  · simp [manualRemediationMessage, List.lookup]
  · simp [process_pending_remediations, hen, Nat.not_le.mpr hcap,
      manualRemediationMessage, List.lookup]

/-- Witness for manualRemediationMessageKeyError at the default settings and
a detected incident. -/
theorem manualRemediationMessageKeyErrorWitness :
    (trigger_remediation "detected" "i10" "bob" "t1").incident_status = "fixing" ∧
    (trigger_remediation "detected" "i10" "bob" "t1").queued
      = some (manualRemediationMessage "i10" "bob" "t1") ∧
    (manualRemediationMessage "i10" "bob" "t1").lookup "fixes" = none ∧
    process_pending_remediations defaultSettings 0 false execAllFail c1DB
        (manualRemediationMessage "i10" "bob" "t1" :: [])
      = (ProcessOutcome.loggedError "KeyError: fixes", c1DB, []) :=
  manualRemediationMessageKeyError defaultSettings 0 false execAllFail c1DB []
    "detected" "i10" "bob" "t1" rfl (by decide) (by decide) (by decide)

end AIRecoverOps
